import Mathlib

/-!
Verification of the Smart-Footwear core pipeline.

Shallow embedding of the core decision-making pipeline of the Smart-Footwear
repository:

* `src/models/GpsData.ts` — the telemetry record parser (`parseGpsData`);
* `src/services/AlertManager.ts` — the geofence scan (`checkDangerZones`),
  the temperature classifier (`getTemperatureStatus`), the tick orchestrator
  (`processAlerts`) and `updateConditions`;
* `src/services/NotificationService.ts` — the cooldown gate
  (`shouldTriggerAlert`), `triggerAlert` and `updateConfig`;
* `src/services/ThingSpeakService.ts` — the rate-limited caching fetcher
  (`fetchGpsData`).

Modelling conventions:

* JavaScript numbers are modelled as `JSNum := Option ℚ`, where `none`
  stands for `NaN` (all `<`, `<=`, `>=` comparisons on `NaN` are `false`,
  and `NaN !== 0` is `true`, exactly as in JavaScript).  Values that can
  additionally be `Infinity` (only the running `closestDistance` of the
  geofence scan, initialised to `Infinity`) use `Option JSNum` with `none`
  standing for `Infinity`.
* The haversine helper `calculateDistance` (IEEE-double trigonometry) is
  abstracted as a distance-oracle parameter `oracle`; every theorem below is
  universally quantified over the oracle, so it covers the concrete
  haversine instance.  No claim depends on the numeric value of a distance,
  only on how the scan compares the reported distances against the bands.
* `Date.now()` / timestamps are integer milliseconds (`ℤ`); the string
  timestamp `createdAt` is converted by a date-parsing oracle `parseDate`
  modelling `new Date(s).getTime()`.
* JS `Map`s are association lists with `Map.get`/`Map.set` semantics.
* Asynchronous effects (haptics, audio, dialogs, network) are external
  sinks; the embedding records *whether* each was invoked, not its effect.
-/

namespace SmartFootwear

/-! ## JavaScript value model -/

/-- A JavaScript number: `none` is `NaN`, `some q` a (rational) numeric value.
Binary doubles are modelled as rationals; none of the verified claims depends
on rounding of IEEE arithmetic, only on comparisons and on `NaN` behaviour. -/
abbrev JSNum := Option ℚ

/-- JS `a < c` where `a` may be `NaN` (then the comparison is `false`)
and `c` is a known-finite number. -/
def jsLtQ (v : JSNum) (c : ℚ) : Bool :=
  match v with
  | none => false
  | some q => decide (q < c)

/-- JS `a <= c` with `NaN` on the left yielding `false`. -/
def jsLeQ (v : JSNum) (c : ℚ) : Bool :=
  match v with
  | none => false
  | some q => decide (q ≤ c)

/-- JS `a >= c` with `NaN` on the left yielding `false`. -/
def jsGeQ (v : JSNum) (c : ℚ) : Bool :=
  match v with
  | none => false
  | some q => decide (c ≤ q)

/-- A JSON field value as delivered by the telemetry endpoint: absent/null,
a string, or a number (JSON numbers cannot be `NaN`). -/
inductive JsonVal where
  | nullv : JsonVal
  | str : String → JsonVal
  | num : ℚ → JsonVal
deriving DecidableEq

/-- JavaScript truthiness of a JSON field value: `null`/`undefined`, the
empty string and `0` are falsy; everything else is truthy. -/
def truthy : JsonVal → Bool
  | .nullv => false
  | .str s => decide (s ≠ "")
  | .num q => decide (q ≠ 0)

/-- Numeric value of a digit character. -/
def digitVal (c : Char) : ℕ := c.toNat - 48

/-- Value of a digit string read in base 10. -/
def digitsToNat (ds : List Char) : ℕ :=
  ds.foldl (fun a c => a * 10 + digitVal c) 0

/-- Model of JavaScript `parseFloat` on a string: skip leading spaces, read
an optional sign, then the longest prefix of the form `digits[.digits]`;
if that prefix contains no digit at all the result is `NaN` (`none`).
(Exponent notation and `Infinity` literals are not produced by the
telemetry endpoint and are not modelled.) -/
def parseFloatStr (s : String) : JSNum :=
  let cs := s.data.dropWhile (fun c => c = ' ')
  let sign : ℚ × List Char :=
    match cs with
    | '-' :: t => (-1, t)
    | '+' :: t => (1, t)
    | _ => (1, cs)
  let ds := sign.2.takeWhile Char.isDigit
  let rest := sign.2.dropWhile Char.isDigit
  let fs :=
    match rest with
    | '.' :: t => t.takeWhile Char.isDigit
    | _ => []
  if ds.isEmpty && fs.isEmpty then none
  else some (sign.1 * ((digitsToNat ds : ℚ) + (digitsToNat fs : ℚ) / 10 ^ fs.length))

/-- JS `parseFloat` applied to a raw JSON field value (`parseFloat`
coerces its argument to a string first; `parseFloat(null)` is `NaN`). -/
def jsParseFloat : JsonVal → JSNum
  | .nullv => none
  | .str s => parseFloatStr s
  | .num q => some q

/-! ## `src/models/GpsData.ts` -/

/-- One raw feed record from the telemetry endpoint (the argument of
`parseGpsData`): a creation timestamp, an entry id, and the channel fields
`field1`..`field6`. -/
structure RawFeed where
  created_at : String
  entry_id : JSNum
  field1 : JsonVal
  field2 : JsonVal
  field3 : JsonVal
  field4 : String
  field5 : JsonVal
  field6 : JsonVal
deriving DecidableEq

/-- The parsed telemetry sample (`GpsData` interface).  `pressure` and
`temperature` are optional (`none` = the TS `undefined`); note that a
*present* optional field may still hold `NaN` (`some none`). -/
structure GpsData where
  createdAt : String
  entryId : JSNum
  latitude : JSNum
  longitude : JSNum
  distance : JSNum
  status : String
  pressure : Option JSNum := none
  temperature : Option JSNum := none
  address : Option String := none
deriving DecidableEq, Inhabited

/-- `parseGpsData` from `src/models/GpsData.ts`:
`pressure: json.field6 ? parseFloat(json.field6) : undefined` and likewise
for `temperature` on `field5`; latitude/longitude/distance are
`parseFloat(field1..field3)` unconditionally. -/
def parseGpsData (json : RawFeed) : GpsData :=
  { createdAt := json.created_at
    entryId := json.entry_id
    latitude := jsParseFloat json.field1
    longitude := jsParseFloat json.field2
    distance := jsParseFloat json.field3
    pressure := if truthy json.field6 then some (jsParseFloat json.field6) else none
    temperature := if truthy json.field5 then some (jsParseFloat json.field5) else none
    status := json.field4 }

/-! ## Alert levels and configuration records (`AlertManager.ts`) -/

/-- `AlertLevel` union type from `NotificationService.ts`. -/
inductive AlertLevel where
  | info : AlertLevel
  | warning : AlertLevel
  | critical : AlertLevel
deriving DecidableEq

/-- The numeric priority the tick's final sort uses
(`levelOrder = { critical: 3, warning: 2, info: 1 }`), extended by `0` for
"no level" exactly like the `|| 0` fallback. -/
def levelOrder : Option AlertLevel → ℕ
  | none => 0
  | some .info => 1
  | some .warning => 2
  | some .critical => 3

/-- A min/max band of a threshold group. -/
structure RangeMM where
  min : ℚ
  max : ℚ
deriving DecidableEq

/-- The `critical: { min }` band of the temperature thresholds. -/
structure CritMin where
  min : ℚ
deriving DecidableEq

/-- The `low: { max }` band of the temperature thresholds. -/
structure LowMax where
  max : ℚ
deriving DecidableEq

/-- `temperatureThresholds` group of `AlertConditions`. -/
structure TemperatureThresholds where
  normal : RangeMM
  warning : RangeMM
  critical : CritMin
  low : LowMax
deriving DecidableEq

/-- `pressureThresholds` group of `AlertConditions`
(`critical` has the shape `{ max, min }` in the source). -/
structure PressureThresholds where
  normal : RangeMM
  warning : RangeMM
  critical : RangeMM
deriving DecidableEq

/-- `dangerZoneDistances` group of `AlertConditions`. -/
structure DangerZoneDistances where
  critical : ℚ
  warning : ℚ
  info : ℚ
deriving DecidableEq

/-- `AlertConditions` from `AlertManager.ts` (`dataStaleThreshold` in
milliseconds). -/
structure AlertConditions where
  temperatureThresholds : TemperatureThresholds
  pressureThresholds : PressureThresholds
  dataStaleThreshold : ℤ
  dangerZoneDistances : DangerZoneDistances
deriving DecidableEq

/-- The default `this.conditions` value of the `AlertManager` singleton. -/
def defaultConditions : AlertConditions :=
  { temperatureThresholds :=
      { normal := { min := 35, max := 375/10 }
        warning := { min := 376/10, max := 385/10 }
        critical := { min := 386/10 }
        low := { max := 349/10 } }
    pressureThresholds :=
      { normal := { min := 800, max := 1050 }
        warning := { min := 750, max := 1100 }
        critical := { min := 1101, max := 749 } }
    dataStaleThreshold := 5 * 60 * 1000
    dangerZoneDistances := { critical := 50, warning := 100, info := 200 } }

/-! ## `getTemperatureStatus` (the temperature classifier) -/

/-- `getTemperatureStatus(temperature)` from `AlertManager.ts`.  The input
`none` models the TS `null`/`undefined` argument; `some v` a JS number `v`
(possibly `NaN`).  Returns the `{ status, level }` pair.  The bands are
checked in source order: low, critical, warning, normal, else unknown. -/
def getTemperatureStatus (cond : AlertConditions) (temperature : Option JSNum) :
    String × Option AlertLevel :=
  match temperature with
  | none => ("unknown", none)
  | some v =>
    if jsLtQ v cond.temperatureThresholds.low.max then ("low", some .info)
    else if jsGeQ v cond.temperatureThresholds.critical.min then ("critical", some .critical)
    else if jsGeQ v cond.temperatureThresholds.warning.min
            && jsLeQ v cond.temperatureThresholds.warning.max then ("warning", some .warning)
    else if jsGeQ v cond.temperatureThresholds.normal.min
            && jsLeQ v cond.temperatureThresholds.normal.max then ("normal", none)
    else ("unknown", none)

/-- `getPressureStatus` from `AlertManager.ts`: deliberately disabled,
always `{ status: 'normal', level: null }`. -/
def getPressureStatus (_pressure : Option JSNum) : String × Option AlertLevel :=
  ("normal", none)

/-! ## JS string helpers used by the geofence scan -/

/-- Boolean list-prefix test (building block of `String.prototype.includes`). -/
def isPrefixB : List Char → List Char → Bool
  | [], _ => true
  | _ :: _, [] => false
  | a :: as, b :: bs => a == b && isPrefixB as bs

/-- Does `pat` occur as a contiguous sublist of the second argument? -/
def containsSubList (pat : List Char) : List Char → Bool
  | [] => isPrefixB pat []
  | c :: t => isPrefixB pat (c :: t) || containsSubList pat t

/-- JS `s.includes(pat)`. -/
def strIncludes (s pat : String) : Bool := containsSubList pat.data s.data

/-- JS `s.toUpperCase()` (ASCII letters; the zone names the app uses contain
no characters whose upper-casing differs from `Char.toUpper`). -/
def jsToUpper (s : String) : String := s.map Char.toUpper

/-- JS `x.toFixed(1)` on a finite number, with round-half-up at the last
digit (`toFixed` rounds the underlying double to one decimal; no verified
claim depends on the rendered digits). -/
def fixed1 (q : ℚ) : String :=
  let n : ℤ := Rat.floor (q * 10 + 1/2)
  let sgn := if n < 0 then "-" else ""
  let m := n.natAbs
  sgn ++ toString (m / 10) ++ "." ++ toString (m % 10)

/-- `toFixed(1)` on a JS number (`NaN.toFixed(1)` renders "NaN"). -/
def jsToFixed1 : JSNum → String
  | none => "NaN"
  | some q => fixed1 q

/-! ## `checkDangerZones` (the geofence scan) -/

/-- A danger zone (`DangerZone` interface from `AlertManager.ts`). -/
structure DangerZone where
  id : ℤ
  latitude : ℚ
  longitude : ℚ
  radius : ℚ
  category : Option String := none
  name : Option String := none
  color : Option String := none
deriving DecidableEq

/-- The distance oracle abstracting `calculateDistance(lat1, lon1, lat2, lon2)`
(haversine over IEEE doubles): current latitude/longitude (JS numbers,
possibly `NaN`), zone centre, and the reported distance (possibly `NaN`). -/
abbrev DistOracle := JSNum → JSNum → ℚ → ℚ → JSNum

/-- The display name a scan branch uses: `zone.name` if present, otherwise
the fallback "Zone " followed by the id. -/
def zoneName (z : DangerZone) : String := z.name.getD ("Zone " ++ toString z.id)

/-- Status string of the inside branch. -/
def insideStatus (z : DangerZone) : String := "⚠️ INSIDE " ++ jsToUpper (zoneName z)

/-- Status string of the critical-proximity branch. -/
def criticalStatus (z : DangerZone) : String := "🚨 CRITICAL PROXIMITY to " ++ zoneName z

/-- Status string of the approaching branch. -/
def approachingStatus (z : DangerZone) : String := "⚠️ APPROACHING " ++ jsToUpper (zoneName z)

/-- Status string of the near branch. -/
def nearStatus (z : DangerZone) : String := "ℹ️ NEAR " ++ zoneName z

/-- "km away" narration for the safe case (`(closestDistance/1000).toFixed(1)`).
The running `closestDistance` is `Option JSNum` with `none` = JS `Infinity`
(its initial value). -/
def safeNarration (z : DangerZone) (closestDistance : Option JSNum) : String :=
  let km :=
    match closestDistance with
    | none => "Infinity"
    | some d => jsToFixed1 (d.map (· / 1000))
  "✅ Safe (" ++ zoneName z ++ ": " ++ km ++ "km away)"

/-- JS `distance < closestDistance` where `closestDistance` may be
`Infinity` (`none`) or `NaN` (`some none`); any comparison with `NaN` on
either side is `false`, and every non-`NaN` number is `< Infinity`. -/
def jsLtInf (d : JSNum) (c : Option JSNum) : Bool :=
  match d with
  | none => false
  | some q =>
    match c with
    | none => true
    | some none => false
    | some (some cq) => decide (q < cq)

/-- The mutable loop state of `checkDangerZones`. -/
structure ScanState where
  closestZone : Option DangerZone
  closestDistance : Option JSNum
  alertLevel : Option AlertLevel
  status : String
deriving DecidableEq

/-- Loop-entry state: `closestZone = null`, `closestDistance = Infinity`,
`alertLevel = null`, `status = 'Safe'`. -/
def initialScan : ScanState :=
  { closestZone := none, closestDistance := none, alertLevel := none, status := "Safe" }

/-- `if (distance < closestDistance) { closestDistance = distance; closestZone = zone; }` -/
def updateClosest (d : JSNum) (z : DangerZone) (s : ScanState) : ScanState :=
  if jsLtInf d s.closestDistance then
    { s with closestDistance := some d, closestZone := some z }
  else s

/-- One iteration of the `for (const zone of zones)` loop of
`checkDangerZones`; the second component is `true` when the loop `break`s
(the inside branch). -/
def zoneStep (dz : DangerZoneDistances) (d : JSNum) (z : DangerZone) (s : ScanState) :
    ScanState × Bool :=
  let s1 := updateClosest d z s
  if jsLeQ d z.radius then
    ({ s1 with status := insideStatus z, alertLevel := some .critical }, true)
  else if jsLeQ d (z.radius + dz.critical) then
    (if !(strIncludes s1.status "INSIDE") then
      { s1 with status := criticalStatus z, alertLevel := some .critical }
     else s1, false)
  else if jsLeQ d (z.radius + dz.warning) then
    (if !(strIncludes s1.status "INSIDE") && !(strIncludes s1.status "CRITICAL") then
      { s1 with status := approachingStatus z, alertLevel := some .warning }
     else s1, false)
  else if jsLeQ d (z.radius + dz.info) then
    (if !(strIncludes s1.status "INSIDE") && !(strIncludes s1.status "CRITICAL")
        && !(strIncludes s1.status "APPROACHING") then
      { s1 with status := nearStatus z, alertLevel := some .info }
     else s1, false)
  else (s1, false)

/-- The zone loop of `checkDangerZones` with its early `break`. -/
def scanZones (dz : DangerZoneDistances) (f : DangerZone → JSNum) :
    List DangerZone → ScanState → ScanState
  | [], s => s
  | z :: zs, s =>
    match zoneStep dz (f z) z s with
    | (s1, true) => s1
    | (s1, false) => scanZones dz f zs s1

/-- The severity band a single zone's reported distance falls in (the
priority of the branch of `zoneStep` whose distance test succeeds first). -/
def zoneBand (dz : DangerZoneDistances) (d : JSNum) (r : ℚ) : Option AlertLevel :=
  if jsLeQ d r then some .critical
  else if jsLeQ d (r + dz.critical) then some .critical
  else if jsLeQ d (r + dz.warning) then some .warning
  else if jsLeQ d (r + dz.info) then some .info
  else none

/-- Return value of `checkDangerZones`. -/
structure ScanResult where
  status : String
  distance : Option JSNum
  level : Option AlertLevel
  closestZone : Option DangerZone
deriving DecidableEq

/-- `checkDangerZones(latitude, longitude, zones)` from `AlertManager.ts`,
with the haversine helper abstracted as `oracle` and the configured
`dangerZoneDistances` passed explicitly. -/
def checkDangerZones (oracle : DistOracle) (latitude longitude : JSNum)
    (zones : List DangerZone) (dz : DangerZoneDistances) : ScanResult :=
  if zones.isEmpty then
    { status := "Safe (No Danger Zones)", distance := some (some 0),
      level := none, closestZone := none }
  else
    let s := scanZones dz (fun z => oracle latitude longitude z.latitude z.longitude)
      zones initialScan
    let status :=
      if s.status = "Safe" then
        match s.closestZone with
        | some z => safeNarration z s.closestDistance
        | none => s.status
      else s.status
    { status := status, distance := s.closestDistance,
      level := s.alertLevel, closestZone := s.closestZone }

/-! ## `NotificationService.ts` -/

/-- `NotificationConfig` (cooldowns in milliseconds). -/
structure NotificationConfig where
  enableHaptics : Bool
  enableAudio : Bool
  enableVisual : Bool
  criticalAlertCooldown : ℤ
  warningAlertCooldown : ℤ
deriving DecidableEq

/-- The default `this.config` of the `NotificationService` singleton. -/
def defaultNotificationConfig : NotificationConfig :=
  { enableHaptics := true, enableAudio := true, enableVisual := true,
    criticalAlertCooldown := 5000, warningAlertCooldown := 10000 }

/-- `AlertType` union type. -/
inductive AlertType where
  | danger_zone : AlertType
  | temperature : AlertType
  | pressure : AlertType
  | location : AlertType
  | data_stale : AlertType
deriving DecidableEq

/-- `NotificationAlert` interface.  `distance` carries the scan's
`closestDistance` (which may be `Infinity`, hence the inner `Option JSNum`);
`timestamp` is epoch milliseconds. -/
structure NotificationAlert where
  id : String
  type : AlertType
  level : AlertLevel
  message : String
  timestamp : ℤ
  distance : Option (Option JSNum) := none
  value : Option JSNum := none
  threshold : Option ℚ := none
deriving DecidableEq

/-- JS `Map.get`: the value at the first (unique) entry with this key. -/
def mapGet {α : Type} : List (String × α) → String → Option α
  | [], _ => none
  | p :: m, k => if p.1 = k then some p.2 else mapGet m k

/-- JS `Map.set`: replace in place the entry with this key, keeping
insertion order, or append a new entry. -/
def mapSet {α : Type} : List (String × α) → String → α → List (String × α)
  | [], k, v => [(k, v)]
  | p :: m, k, v => if p.1 = k then (k, v) :: m else p :: mapSet m k v

/-- Mutable state of the `NotificationService` singleton (the audio map and
the initialisation flag drive only the external effect sinks and are not
modelled). -/
structure NSState where
  config : NotificationConfig
  lastAlertTimes : List (String × ℤ)
deriving DecidableEq

/-- The cooldown `shouldTriggerAlert` selects: the critical cooldown for
critical alerts, the warning cooldown for everything else (info alerts
inherit the warning bucket). -/
def cooldownFor (c : NotificationConfig) (level : AlertLevel) : ℤ :=
  if level = .critical then c.criticalAlertCooldown else c.warningAlertCooldown

/-- `shouldTriggerAlert(alertId, level)` from `NotificationService.ts`:
reads `lastAlertTimes.get(alertId) || 0`; if `now - last < cooldown`
suppresses (returning the state unchanged), otherwise records `now` for the
id and allows the alert. -/
def shouldTriggerAlert (ns : NSState) (now : ℤ) (alertId : String) (level : AlertLevel) :
    Bool × NSState :=
  let lastTime := (mapGet ns.lastAlertTimes alertId).getD 0
  let cooldown := cooldownFor ns.config level
  if now - lastTime < cooldown then (false, ns)
  else (true, { ns with lastAlertTimes := mapSet ns.lastAlertTimes alertId now })

/-- `triggerAlert(alert)`: runs the cooldown gate; when it passes, the
haptic/audio/visual sinks fire (external effects).  Returns the updated
service state and whether a notification was dispatched. -/
def triggerAlert (ns : NSState) (now : ℤ) (alert : NotificationAlert) : NSState × Bool :=
  let g := shouldTriggerAlert ns now alert.id alert.level
  (g.2, g.1)

/-- `Partial NotificationConfig` for `updateConfig`: each top-level key
either absent or supplying a whole replacement value. -/
structure NotificationConfigUpdate where
  enableHaptics : Option Bool := none
  enableAudio : Option Bool := none
  enableVisual : Option Bool := none
  criticalAlertCooldown : Option ℤ := none
  warningAlertCooldown : Option ℤ := none
deriving DecidableEq

/-- `updateConfig(newConfig)`: the one-level spread
`this.config = { ...this.config, ...newConfig }`. -/
def updateConfig (c : NotificationConfig) (p : NotificationConfigUpdate) :
    NotificationConfig :=
  { enableHaptics := p.enableHaptics.getD c.enableHaptics
    enableAudio := p.enableAudio.getD c.enableAudio
    enableVisual := p.enableVisual.getD c.enableVisual
    criticalAlertCooldown := p.criticalAlertCooldown.getD c.criticalAlertCooldown
    warningAlertCooldown := p.warningAlertCooldown.getD c.warningAlertCooldown }

/-- `Partial AlertConditions` for `updateConditions`: each top-level key
either absent or supplying a whole replacement group. -/
structure AlertConditionsUpdate where
  temperatureThresholds : Option TemperatureThresholds := none
  pressureThresholds : Option PressureThresholds := none
  dataStaleThreshold : Option ℤ := none
  dangerZoneDistances : Option DangerZoneDistances := none
deriving DecidableEq

/-- `updateConditions(newConditions)` from `AlertManager.ts`: the one-level
spread `this.conditions = { ...this.conditions, ...newConditions }`. -/
def updateConditions (c : AlertConditions) (p : AlertConditionsUpdate) :
    AlertConditions :=
  { temperatureThresholds := p.temperatureThresholds.getD c.temperatureThresholds
    pressureThresholds := p.pressureThresholds.getD c.pressureThresholds
    dataStaleThreshold := p.dataStaleThreshold.getD c.dataStaleThreshold
    dangerZoneDistances := p.dangerZoneDistances.getD c.dangerZoneDistances }

/-! ## `processAlerts` (the tick orchestrator of `AlertManager.ts`) -/

/-- `level.toUpperCase()` used in the temperature message. -/
def levelUpper : AlertLevel → String
  | .info => "INFO"
  | .warning => "WARNING"
  | .critical => "CRITICAL"

/-- An evaluation location (JS numbers, possibly `NaN`). -/
structure Location where
  latitude : JSNum
  longitude : JSNum
deriving DecidableEq

/-- Alert map (`Map<string, NotificationAlert>`). -/
abbrev AMap := List (String × NotificationAlert)

/-- Mutable state of the `AlertManager` singleton. -/
structure AMState where
  activeAlerts : AMap
  previousAlerts : AMap
  conditions : AlertConditions
deriving DecidableEq

/-- The location-resolution block at the top of `processAlerts`:
use the sample when it exists and both coordinates are `!== 0` (note this
drops any sample with latitude 0 *or* longitude 0, and `NaN !== 0` passes),
else fall back to `deviceLocation`, else no location. -/
def resolveLocation (gpsData : Option GpsData) (deviceLocation : Option Location) :
    Option Location :=
  match gpsData with
  | some g =>
    if g.latitude ≠ some 0 ∧ g.longitude ≠ some 0 then
      some { latitude := g.latitude, longitude := g.longitude }
    else deviceLocation
  | none => deviceLocation

/-- Step 1 of the tick: the danger-zone alert, produced when a location was
resolved and the scan reports a non-null level. -/
def dangerAlert (oracle : DistOracle) (cond : AlertConditions) (now : ℤ)
    (currentLocation : Option Location) (zones : List DangerZone) :
    Option NotificationAlert :=
  match currentLocation with
  | none => none
  | some loc =>
    let r := checkDangerZones oracle loc.latitude loc.longitude zones
      cond.dangerZoneDistances
    match r.level with
    | none => none
    | some lvl =>
      some { id := "danger_zone", type := .danger_zone, level := lvl,
             message := r.status, timestamp := now, distance := some r.distance }

/-- Step 2 of the tick: the temperature alert, produced when the sample
carries a (present) temperature whose classification has a non-null level. -/
def tempAlert (cond : AlertConditions) (now : ℤ) (gpsData : Option GpsData) :
    Option NotificationAlert :=
  match gpsData with
  | none => none
  | some g =>
    match g.temperature with
    | none => none
    | some t =>
      let tr := getTemperatureStatus cond (some t)
      match tr.2 with
      | none => none
      | some lvl =>
        some { id := "temperature", type := .temperature, level := lvl,
               message := "🌡️ " ++ levelUpper lvl ++ ": Foot temperature "
                 ++ jsToFixed1 t ++ "°C",
               timestamp := now, value := some t,
               threshold :=
                 if tr.1 = "critical" then some cond.temperatureThresholds.critical.min
                 else if tr.1 = "low" then some cond.temperatureThresholds.low.max
                 else none }

/-- The fixed data-staleness alert record. -/
def staleAlertRecord (now : ℤ) : NotificationAlert :=
  { id := "data_stale", type := .data_stale, level := .warning,
    message := "⏰ WARNING: Sensor data is outdated", timestamp := now }

/-- Step 5 of the tick: the staleness alert, produced when a sample exists
and `now - new Date(createdAt).getTime() > dataStaleThreshold`. -/
def staleAlert (cond : AlertConditions) (parseDate : String → ℤ) (now : ℤ)
    (gpsData : Option GpsData) : Option NotificationAlert :=
  match gpsData with
  | none => none
  | some g =>
    if now - parseDate g.createdAt > cond.dataStaleThreshold then
      some (staleAlertRecord now)
    else none

/-- The `newAlerts` array a tick pushes, in push order
(danger zone, temperature, staleness). -/
def tickAlerts (oracle : DistOracle) (parseDate : String → ℤ) (cond : AlertConditions)
    (now : ℤ) (gpsData : Option GpsData) (zones : List DangerZone)
    (deviceLocation : Option Location) : List NotificationAlert :=
  (dangerAlert oracle cond now (resolveLocation gpsData deviceLocation) zones).toList
    ++ (tempAlert cond now gpsData).toList
    ++ (staleAlert cond parseDate now gpsData).toList

/-- The per-alert edge-trigger check against the previous tick's map:
danger-zone and temperature alerts fire when the id is new or its level
changed; the staleness alert fires only when its id is new. -/
def edgeTrigger (prev : AMap) (a : NotificationAlert) : Bool :=
  match mapGet prev a.id with
  | none => true
  | some p => if a.id = "data_stale" then false else decide (p.level ≠ a.level)

/-- The `activeAlerts` map rebuilt by a tick (cleared, then set per alert). -/
def buildActive (alerts : List NotificationAlert) : AMap :=
  alerts.foldl (fun m a => mapSet m a.id a) []

/-- Stable insertion into a list sorted by decreasing `levelOrder`
(models the JS `sort` comparator together with its stability guarantee). -/
def insLevel (a : NotificationAlert) : List NotificationAlert → List NotificationAlert
  | [] => [a]
  | b :: bs =>
    if levelOrder (some a.level) ≤ levelOrder (some b.level) then b :: insLevel a bs
    else a :: b :: bs

/-- `newAlerts.sort((a, b) => levelOrder[b.level] - levelOrder[a.level])`. -/
def sortByLevel (l : List NotificationAlert) : List NotificationAlert :=
  l.foldl (fun acc a => insLevel a acc) []

/-- What one `processAlerts` call produces: the returned (sorted) alert
list, the updated manager and notification-service states, the ids for
which `notificationService.triggerAlert` was invoked (edge-trigger fired),
and the ids for which the cooldown gate let the notification dispatch. -/
structure TickResult where
  alerts : List NotificationAlert
  am : AMState
  ns : NSState
  invoked : List String
  dispatched : List String

/-- `processAlerts(gpsData, dangerZones, deviceLocation)` from
`AlertManager.ts`: snapshot the previous map, rebuild the active map from
this tick's alerts, run the edge-trigger comparison per alert and call
`triggerAlert` for the qualifying ones in push order, and return the alert
list sorted by level priority. -/
def processAlerts (oracle : DistOracle) (parseDate : String → ℤ) (am : AMState)
    (ns : NSState) (now : ℤ) (gpsData : Option GpsData) (zones : List DangerZone)
    (deviceLocation : Option Location) : TickResult :=
  let prev := am.activeAlerts
  let newAlerts := tickAlerts oracle parseDate am.conditions now gpsData zones
    deviceLocation
  let fire := newAlerts.filter (fun a => edgeTrigger prev a)
  let res := fire.foldl
    (fun (acc : NSState × List String) a =>
      let r := triggerAlert acc.1 now a
      (r.1, acc.2 ++ if r.2 then [a.id] else []))
    (ns, [])
  { alerts := sortByLevel newAlerts
    am := { activeAlerts := buildActive newAlerts, previousAlerts := prev,
            conditions := am.conditions }
    ns := res.1
    invoked := fire.map (fun a => a.id)
    dispatched := res.2 }

/-! ## `ThingSpeakService.ts` (the rate-limited caching fetcher) -/

/-- Module-level mutable state of `ThingSpeakService.ts`:
`lastApiCall`, `cachedData`, `isApiCallInProgress`. -/
structure TSState where
  lastApiCall : ℤ
  cachedData : Option GpsData
  isApiCallInProgress : Bool
deriving DecidableEq

/-- What one `fetchGpsData` call produces: the returned sample or the
thrown error, the module state afterwards, and whether an HTTP request was
issued. -/
structure FetchResult where
  result : Except String GpsData
  state : TSState
  madeNetworkCall : Bool

/-- `fetchGpsData(forceRefresh)` from `ThingSpeakService.ts`.  `tStart` is
the `Date.now()` read on entry and `tDone` the one taken after the
response (`lastApiCall = Date.now()`); `net` is the network oracle — the
raw feed the endpoint returns, or the error axios throws.

Modelled single-threaded, as the repository runs a single pipeline: the
in-flight branch's bounded busy-wait observes an unchanged cache, and the
minimum-interval wait only delays the request.  Branches in source order:
fresh cache (not forced, cached, within the 30000 ms TTL) returns the
cached sample without a request; an in-flight call with a cache returns
the cached sample; otherwise the request is made — on success the response
is parsed, cached and `lastApiCall` stamped; on failure the cached sample
is returned when one exists and the error is rethrown only on a cold
cache; the `finally` clears the in-progress flag. -/
def fetchGpsData (st : TSState) (tStart tDone : ℤ) (forceRefresh : Bool)
    (net : Except String RawFeed) : FetchResult :=
  if forceRefresh = false ∧ st.cachedData.isSome = true
      ∧ tStart - st.lastApiCall < 30000 then
    { result := .ok (st.cachedData.getD default), state := st, madeNetworkCall := false }
  else if st.isApiCallInProgress = true ∧ st.cachedData.isSome = true then
    { result := .ok (st.cachedData.getD default), state := st, madeNetworkCall := false }
  else
    match net with
    | .ok raw =>
      let d := parseGpsData raw
      { result := .ok d,
        state := { lastApiCall := tDone, cachedData := some d,
                   isApiCallInProgress := false },
        madeNetworkCall := true }
    | .error e =>
      match st.cachedData with
      | some d =>
        { result := .ok d, state := { st with isApiCallInProgress := false },
          madeNetworkCall := true }
      | none =>
        { result := .error e, state := { st with isApiCallInProgress := false },
          madeNetworkCall := true }

/-! ## Concrete inputs used by witnesses and counterexamples -/

/-- A well-formed raw feed record. -/
def rawOk : RawFeed :=
  { created_at := "2025-01-01T00:00:00Z", entry_id := some 3, field1 := .str "12.5",
    field2 := .str "77.6", field3 := .str "0", field4 := "OK",
    field5 := .nullv, field6 := .nullv }

/-- Fetcher state at module load: no cache, `lastApiCall = 0`. -/
def tsInit : TSState :=
  { lastApiCall := 0, cachedData := none, isApiCallInProgress := false }

/-- Fetcher state holding a cached sample fetched at t = 100000. -/
def tsCached : TSState :=
  { lastApiCall := 100000, cachedData := some (parseGpsData rawOk),
    isApiCallInProgress := false }

/-- Initial `AlertManager` state (empty maps, default conditions). -/
def amInit : AMState :=
  { activeAlerts := [], previousAlerts := [], conditions := defaultConditions }

/-- Initial `NotificationService` state. -/
def nsInit : NSState :=
  { config := defaultNotificationConfig, lastAlertTimes := [] }

/-- A sample whose latitude is the sentinel 0 but whose longitude is a real
coordinate. -/
def c7gpsZeroLat : GpsData :=
  { createdAt := "2025-01-01T00:00:00Z", entryId := some 1, latitude := some 0,
    longitude := some 5, distance := some 0, status := "OK" }

/-- A sample whose latitude is `NaN`. -/
def c7gpsNaNLat : GpsData :=
  { createdAt := "2025-01-01T00:00:00Z", entryId := some 1, latitude := none,
    longitude := some 5, distance := some 0, status := "OK" }

/-- A device fallback location. -/
def c7device : Location := { latitude := some 1, longitude := some 1 }

/-- A six-minute-old sample with no temperature (its exact coordinates are
irrelevant: the zone list is empty in the staleness scenario). -/
def c9gps : GpsData :=
  { createdAt := "2025-01-01T00:00:00Z", entryId := some 1, latitude := some 0,
    longitude := some 0, distance := some 0, status := "OK" }

/-- A critical danger-zone alert used to exercise the cooldown gate. -/
def c4alert : NotificationAlert :=
  { id := "danger_zone", type := .danger_zone, level := .critical,
    message := "zone alert", timestamp := 0 }

/-- A replacement temperature-threshold group in which only the critical
band differs from the defaults (as a caller supplying just
`temperatureThresholds.critical` would build it, losing the rest). -/
def c10newTemp : TemperatureThresholds :=
  { normal := { min := 0, max := 0 }
    warning := { min := 0, max := 0 }
    critical := { min := 39 }
    low := { max := 0 } }

/-- A telemetry record whose optional temperature/pressure fields hold a
non-empty, non-numeric string. -/
def nonNumericFeed : RawFeed :=
  { created_at := "2025-01-01T00:00:00Z"
    entry_id := some 1
    field1 := .str "12.5"
    field2 := .str "77.6"
    field3 := .str "0"
    field4 := "OK"
    field5 := .str "abc"
    field6 := .str "abc" }

/-- A telemetry record with falsy optional fields (empty string / null). -/
def missingFieldsFeed : RawFeed :=
  { created_at := "2025-01-01T00:00:00Z"
    entry_id := some 2
    field1 := .str "12.5"
    field2 := .str "77.6"
    field3 := .str "0"
    field4 := "OK"
    field5 := .str ""
    field6 := .nullv }

/-- A zone named "A" with a 100 m radius. -/
def c1zoneA : DangerZone :=
  { id := 1, latitude := 1, longitude := 1, radius := 100, name := some "A" }

/-- A zone named "B" with a 100 m radius. -/
def c1zoneB : DangerZone :=
  { id := 2, latitude := 2, longitude := 2, radius := 100, name := some "B" }

/-- A distance oracle putting zone A at 120 m and zone B at 130 m (both in
the critical-proximity band: outside the 100 m radius but within 150 m). -/
def c1oracle : DistOracle := fun _ _ zlat _ => if zlat = 1 then some 120 else some 130

/-- A distance oracle reporting 50 m for every zone (inside a 100 m zone). -/
def c1insideOracle : DistOracle := fun _ _ _ _ => some 50

/-- A scan state in which an earlier zone has already produced a
critical-proximity status. -/
def c1critState : ScanState :=
  { closestZone := some c1zoneA, closestDistance := some (some 120),
    alertLevel := some .critical, status := criticalStatus c1zoneA }

/-! ## Scan invariant -/

/-- Invariant tying the scan's accumulated `alertLevel` to the marker
substrings its guards test: a critical level is only ever paired with a
status containing "CRITICAL" or "INSIDE", and a warning level with one
containing "APPROACHING".  This is what makes the string-based guards
block every downgrade. -/
def ScanInv (s : ScanState) : Prop :=
  (s.alertLevel = some .critical →
    strIncludes s.status "CRITICAL" = true ∨ strIncludes s.status "INSIDE" = true)
  ∧ (s.alertLevel = some .warning → strIncludes s.status "APPROACHING" = true)

/-! # Theorems -/

/-! ## Claim C2 — temperature boundary classification -/

/-- C2 (counterexample): the claim asserts `classifyTemperature(34.9)` is
`low`/`info`; the code's low band is strict (`temperature < 34.9`), so 34.9
falls in no band and classifies as `unknown`/`null`. -/
theorem c2_counterexample :
    getTemperatureStatus defaultConditions (some (some (349/10))) = ("unknown", none)
    ∧ ("unknown", (none : Option AlertLevel)) ≠ ("low", some AlertLevel.info) := by
  constructor
  · norm_num [getTemperatureStatus, jsLtQ, jsGeQ, jsLeQ, defaultConditions]
  · decide

/-- C2 (amended): `getTemperatureStatus` maps boundary values as follows:
38.6 → critical/critical, 38.5 → warning/warning, 35.0 → normal/null,
`null` → unknown/null, but 34.9 → unknown/null (not low/info: the low band
is strict `< 34.9` and the normal band starts at 35.0, so `[34.9, 35.0)` is
unclassified); the bands are checked in the order low, critical, warning,
normal and are mutually exclusive, as the closed-form characterisation
below shows. -/
theorem c2_temperature_boundaries :
    (∀ q : ℚ, getTemperatureStatus defaultConditions (some (some q)) =
      (if q < 349/10 then ("low", some AlertLevel.info)
       else if 386/10 ≤ q then ("critical", some AlertLevel.critical)
       else if 376/10 ≤ q ∧ q ≤ 385/10 then ("warning", some AlertLevel.warning)
       else if 35 ≤ q ∧ q ≤ 375/10 then ("normal", none)
       else ("unknown", none)))
    ∧ getTemperatureStatus defaultConditions (some (some (386/10))) = ("critical", some AlertLevel.critical)
    ∧ getTemperatureStatus defaultConditions (some (some (385/10))) = ("warning", some AlertLevel.warning)
    ∧ getTemperatureStatus defaultConditions (some (some 35)) = ("normal", none)
    ∧ getTemperatureStatus defaultConditions (some (some (349/10))) = ("unknown", none)
    ∧ getTemperatureStatus defaultConditions none = ("unknown", none) := by
  refine ⟨?_,
    by norm_num [getTemperatureStatus, jsLtQ, jsGeQ, jsLeQ, defaultConditions],
    by norm_num [getTemperatureStatus, jsLtQ, jsGeQ, jsLeQ, defaultConditions],
    by norm_num [getTemperatureStatus, jsLtQ, jsGeQ, jsLeQ, defaultConditions],
    by norm_num [getTemperatureStatus, jsLtQ, jsGeQ, jsLeQ, defaultConditions],
    rfl⟩
  intro q
  simp only [getTemperatureStatus, jsLtQ, jsGeQ, jsLeQ, defaultConditions,
    Bool.and_eq_true, decide_eq_true_eq]

/-! ## Claim C8 — parser treatment of optional fields -/

/-- C8 (counterexample): the claim asserts a non-parseable optional field is
parsed as absent; on a record whose `field5`/`field6` are the non-numeric
string "abc" the parsed sample carries `NaN` (`some none`), which is a
present numeric stand-in, not the absent value `none`. -/
theorem c8_counterexample :
    (parseGpsData nonNumericFeed).pressure = some none
    ∧ (parseGpsData nonNumericFeed).temperature = some none
    ∧ (some (none : JSNum)) ≠ (none : Option JSNum) := by
  refine ⟨by decide, by decide, by decide⟩

/-- C8 (amended): missing/falsy optional fields (absent, `null`, the empty
string, the number 0) parse as absent, but a truthy field is always parsed
with `parseFloat`, so a non-empty non-numeric string yields the present
value `NaN` rather than absent. -/
theorem c8_parse_optional_fields (json : RawFeed) :
    (truthy json.field6 = false → (parseGpsData json).pressure = none)
    ∧ (truthy json.field5 = false → (parseGpsData json).temperature = none)
    ∧ (truthy json.field6 = true →
        (parseGpsData json).pressure = some (jsParseFloat json.field6))
    ∧ (truthy json.field5 = true →
        (parseGpsData json).temperature = some (jsParseFloat json.field5)) := by
  refine ⟨?_, ?_, ?_, ?_⟩ <;> intro h <;> simp [parseGpsData, h]

/-- C8 (witness): concrete instances of `c8_parse_optional_fields`: a `null`
pressure field and an empty temperature field parse as absent, while the
non-numeric string "abc" parses to the present `NaN`. -/
theorem c8_witness :
    (parseGpsData missingFieldsFeed).pressure = none
    ∧ (parseGpsData missingFieldsFeed).temperature = none
    ∧ (parseGpsData nonNumericFeed).pressure = some (jsParseFloat nonNumericFeed.field6) :=
  ⟨(c8_parse_optional_fields missingFieldsFeed).1 (by decide),
   (c8_parse_optional_fields missingFieldsFeed).2.1 (by decide),
   (c8_parse_optional_fields nonNumericFeed).2.2.1 (by decide)⟩

/-! ## Scan helper lemmas (claim C1) -/

theorem isPrefixB_nil (l : List Char) : isPrefixB [] l = true := by
  cases l <;> rfl

theorem isPrefixB_append (pat : List Char) :
    ∀ l b, isPrefixB pat l = true → isPrefixB pat (l ++ b) = true := by
  induction pat with
  | nil => intro l b _; exact isPrefixB_nil _
  | cons p ps ih =>
    intro l b h
    cases l with
    | nil => simp [isPrefixB] at h
    | cons c t =>
      simp only [isPrefixB, Bool.and_eq_true, beq_iff_eq] at h
      simp only [List.cons_append, isPrefixB, Bool.and_eq_true, beq_iff_eq]
      exact ⟨h.1, ih t b h.2⟩

theorem containsSubList_append (pat a b : List Char)
    (h : containsSubList pat a = true) : containsSubList pat (a ++ b) = true := by
  induction a with
  | nil =>
    cases pat with
    | nil => cases b <;> simp [containsSubList, isPrefixB_nil, isPrefixB]
    | cons p ps => simp [containsSubList, isPrefixB] at h
  | cons c t ih =>
    simp only [containsSubList, Bool.or_eq_true] at h
    rcases h with h | h
    · simp only [List.cons_append, containsSubList, Bool.or_eq_true]
      exact Or.inl (isPrefixB_append _ _ _ h)
    · simp only [List.cons_append, containsSubList, Bool.or_eq_true]
      exact Or.inr (ih h)

theorem strData_append (a b : String) : (a ++ b).data = a.data ++ b.data := rfl

theorem strIncludes_append_left (a b pat : String)
    (h : strIncludes a pat = true) : strIncludes (a ++ b) pat = true := by
  unfold strIncludes at h ⊢
  rw [strData_append]
  exact containsSubList_append _ _ _ h

theorem insideStatus_includes (z : DangerZone) :
    strIncludes (insideStatus z) "INSIDE" = true :=
  strIncludes_append_left "⚠️ INSIDE " _ _ (by decide)

theorem criticalStatus_includes (z : DangerZone) :
    strIncludes (criticalStatus z) "CRITICAL" = true :=
  strIncludes_append_left "🚨 CRITICAL PROXIMITY to " _ _ (by decide)

theorem approachingStatus_includes (z : DangerZone) :
    strIncludes (approachingStatus z) "APPROACHING" = true :=
  strIncludes_append_left "⚠️ APPROACHING " _ _ (by decide)

theorem updateClosest_status (d : JSNum) (z : DangerZone) (s : ScanState) :
    (updateClosest d z s).status = s.status := by
  unfold updateClosest; split <;> rfl

theorem updateClosest_level (d : JSNum) (z : DangerZone) (s : ScanState) :
    (updateClosest d z s).alertLevel = s.alertLevel := by
  unfold updateClosest; split <;> rfl

theorem scanInv_updateClosest (d : JSNum) (z : DangerZone) (s : ScanState)
    (hs : ScanInv s) : ScanInv (updateClosest d z s) := by
  unfold ScanInv at hs ⊢
  rw [updateClosest_status, updateClosest_level]
  exact hs

theorem levelOrder_le_three (o : Option AlertLevel) : levelOrder o ≤ 3 := by
  cases o with
  | none => simp [levelOrder]
  | some l => cases l <;> simp [levelOrder]

theorem eq_critical_of_two_lt {o : Option AlertLevel} (h : 2 < levelOrder o) :
    o = some .critical := by
  cases o with
  | none => simp [levelOrder] at h
  | some l => cases l <;> simp [levelOrder] at h ⊢

theorem warning_or_critical_of_one_lt {o : Option AlertLevel} (h : 1 < levelOrder o) :
    o = some .warning ∨ o = some .critical := by
  cases o with
  | none => simp [levelOrder] at h
  | some l => cases l <;> simp [levelOrder] at h ⊢

theorem scanInv_initial : ScanInv initialScan := by
  constructor <;> intro h <;> simp [initialScan] at h

/-- One loop iteration preserves the scan invariant and never lowers the
accumulated severity. -/
theorem zoneStep_inv_mono (dz : DangerZoneDistances) (d : JSNum) (z : DangerZone)
    (s : ScanState) (hs : ScanInv s) :
    ScanInv (zoneStep dz d z s).1 ∧
      levelOrder s.alertLevel ≤ levelOrder (zoneStep dz d z s).1.alertLevel := by
  have hst := updateClosest_status d z s
  have hlv := updateClosest_level d z s
  have hs1 := scanInv_updateClosest d z s hs
  unfold zoneStep
  by_cases h1 : jsLeQ d z.radius = true
  · simp only [h1, if_true]
    refine ⟨⟨fun _ => Or.inr (insideStatus_includes z), fun h => by simp at h⟩, ?_⟩
    calc levelOrder s.alertLevel ≤ 3 := levelOrder_le_three _
      _ = levelOrder (some .critical) := rfl
  · rw [Bool.not_eq_true] at h1
    simp only [h1, Bool.false_eq_true, if_false]
    by_cases h2 : jsLeQ d (z.radius + dz.critical) = true
    · simp only [h2, if_true]
      by_cases hI : strIncludes (updateClosest d z s).status "INSIDE" = true
      · simp only [hI, Bool.not_true, Bool.false_eq_true, if_false]
        exact ⟨hs1, by rw [hlv]⟩
      · rw [Bool.not_eq_true] at hI
        simp only [hI, Bool.not_false, if_true]
        refine ⟨⟨fun _ => Or.inl (criticalStatus_includes z), fun h => by simp at h⟩, ?_⟩
        calc levelOrder s.alertLevel ≤ 3 := levelOrder_le_three _
          _ = levelOrder (some .critical) := rfl
    · rw [Bool.not_eq_true] at h2
      simp only [h2, Bool.false_eq_true, if_false]
      by_cases h3 : jsLeQ d (z.radius + dz.warning) = true
      · simp only [h3, if_true]
        by_cases hI : strIncludes (updateClosest d z s).status "INSIDE" = true
        · simp only [hI, Bool.not_true, Bool.false_and, Bool.false_eq_true, if_false]
          exact ⟨hs1, by rw [hlv]⟩
        · by_cases hC : strIncludes (updateClosest d z s).status "CRITICAL" = true
          · simp only [hC, Bool.not_true, Bool.and_false, Bool.false_eq_true, if_false]
            exact ⟨hs1, by rw [hlv]⟩
          · rw [Bool.not_eq_true] at hI hC
            simp only [hI, hC, Bool.not_false, Bool.and_self, if_true]
            refine ⟨⟨fun h => by simp at h, fun _ => approachingStatus_includes z⟩, ?_⟩
            have hle : levelOrder s.alertLevel ≤ 2 := by
              by_contra hgt
              push_neg at hgt
              have hcrit := eq_critical_of_two_lt hgt
              rcases hs.1 hcrit with h | h
              · rw [hst] at hC; rw [hC] at h; exact Bool.false_ne_true h
              · rw [hst] at hI; rw [hI] at h; exact Bool.false_ne_true h
            calc levelOrder s.alertLevel ≤ 2 := hle
              _ = levelOrder (some .warning) := rfl
      · rw [Bool.not_eq_true] at h3
        simp only [h3, Bool.false_eq_true, if_false]
        by_cases h4 : jsLeQ d (z.radius + dz.info) = true
        · simp only [h4, if_true]
          by_cases hI : strIncludes (updateClosest d z s).status "INSIDE" = true
          · simp only [hI, Bool.not_true, Bool.false_and, Bool.false_eq_true, if_false]
            exact ⟨hs1, by rw [hlv]⟩
          · by_cases hC : strIncludes (updateClosest d z s).status "CRITICAL" = true
            · simp only [hC, Bool.not_true, Bool.and_false, Bool.false_and,
                Bool.false_eq_true, if_false]
              exact ⟨hs1, by rw [hlv]⟩
            · by_cases hA : strIncludes (updateClosest d z s).status "APPROACHING" = true
              · simp only [hA, Bool.not_true, Bool.and_false, Bool.false_eq_true, if_false]
                exact ⟨hs1, by rw [hlv]⟩
              · rw [Bool.not_eq_true] at hI hC hA
                simp only [hI, hC, hA, Bool.not_false, Bool.and_self, if_true]
                refine ⟨⟨fun h => by simp at h, fun h => by simp at h⟩, ?_⟩
                have hle : levelOrder s.alertLevel ≤ 1 := by
                  by_contra hgt
                  push_neg at hgt
                  rcases warning_or_critical_of_one_lt hgt with hw | hcrit
                  · have h := hs.2 hw
                    rw [hst] at hA; rw [hA] at h; exact Bool.false_ne_true h
                  · rcases hs.1 hcrit with h | h
                    · rw [hst] at hC; rw [hC] at h; exact Bool.false_ne_true h
                    · rw [hst] at hI; rw [hI] at h; exact Bool.false_ne_true h
                calc levelOrder s.alertLevel ≤ 1 := hle
                  _ = levelOrder (some .info) := rfl
        · rw [Bool.not_eq_true] at h4
          simp only [h4, Bool.false_eq_true, if_false]
          exact ⟨hs1, by rw [hlv]⟩

/-- The whole loop preserves the invariant and never lowers the severity. -/
theorem scanZones_inv_mono (dz : DangerZoneDistances) (f : DangerZone → JSNum) :
    ∀ (zs : List DangerZone) (s : ScanState), ScanInv s →
      ScanInv (scanZones dz f zs s) ∧
        levelOrder s.alertLevel ≤ levelOrder (scanZones dz f zs s).alertLevel := by
  intro zs
  induction zs with
  | nil => intro s hs; exact ⟨hs, le_refl _⟩
  | cons z zs ih =>
    intro s hs
    have hstep := zoneStep_inv_mono dz (f z) z s hs
    cases hzs : zoneStep dz (f z) z s with
    | mk s1 br =>
      rw [hzs] at hstep
      cases br with
      | false =>
        have hrest := ih s1 hstep.1
        constructor
        · simpa [scanZones, hzs] using hrest.1
        · calc levelOrder s.alertLevel ≤ levelOrder s1.alertLevel := hstep.2
            _ ≤ _ := by simpa [scanZones, hzs] using hrest.2
      | true => simpa [scanZones, hzs] using hstep

/-- Extending the zone list can only keep or raise the resulting severity. -/
theorem scanZones_prefix_mono (dz : DangerZoneDistances) (f : DangerZone → JSNum) :
    ∀ (zs1 zs2 : List DangerZone) (s : ScanState), ScanInv s →
      levelOrder (scanZones dz f zs1 s).alertLevel ≤
        levelOrder (scanZones dz f (zs1 ++ zs2) s).alertLevel := by
  intro zs1
  induction zs1 with
  | nil =>
    intro zs2 s hs
    simpa [scanZones] using (scanZones_inv_mono dz f zs2 s hs).2
  | cons z zs1 ih =>
    intro zs2 s hs
    have hstep := zoneStep_inv_mono dz (f z) z s hs
    cases hzs : zoneStep dz (f z) z s with
    | mk s1 br =>
      rw [hzs] at hstep
      cases br with
      | false => simpa [scanZones, hzs] using ih zs2 s1 hstep.1
      | true => simp [scanZones, hzs]

/-- A zone that is not "inside" never breaks the loop. -/
theorem zoneStep_not_inside_snd (dz : DangerZoneDistances) (d : JSNum) (z : DangerZone)
    (s : ScanState) (h : jsLeQ d z.radius = false) : (zoneStep dz d z s).2 = false := by
  unfold zoneStep
  simp only [h, Bool.false_eq_true, if_false]
  split <;> try rfl
  split <;> try rfl
  split <;> rfl

/-- Once a zone reports "inside", the loop breaks there: every zone after it
is ignored, and the accumulated level is critical. -/
theorem scanZones_inside_break (dz : DangerZoneDistances) (f : DangerZone → JSNum) :
    ∀ (zs1 : List DangerZone) (z : DangerZone) (rest : List DangerZone) (s : ScanState),
      (∀ w ∈ zs1, jsLeQ (f w) w.radius = false) → jsLeQ (f z) z.radius = true →
      scanZones dz f (zs1 ++ z :: rest) s = scanZones dz f (zs1 ++ [z]) s
        ∧ (scanZones dz f (zs1 ++ z :: rest) s).alertLevel = some .critical := by
  intro zs1
  induction zs1 with
  | nil =>
    intro z rest s _ hz
    constructor
    · simp [scanZones, zoneStep, hz]
    · simp [scanZones, zoneStep, hz]
  | cons w zs1 ih =>
    intro z rest s hws hz
    have hw : jsLeQ (f w) w.radius = false := hws w (List.mem_cons_self _ _)
    cases hzs : zoneStep dz (f w) w s with
    | mk s1 br =>
      have hbr : br = false := by
        have hb := zoneStep_not_inside_snd dz (f w) w s hw
        rw [hzs] at hb
        exact hb
      subst hbr
      have hrest := ih z rest s1 (fun x hx => hws x (List.mem_cons_of_mem _ hx)) hz
      constructor
      · simpa [scanZones, hzs] using hrest.1
      · simpa [scanZones, hzs] using hrest.2

/-- For a non-empty zone list, `checkDangerZones` reports exactly the
loop's accumulated level (the safe-narration step never changes it). -/
theorem checkDangerZones_level (oracle : DistOracle) (lat lon : JSNum)
    (zones : List DangerZone) (dz : DangerZoneDistances) (h : zones ≠ []) :
    (checkDangerZones oracle lat lon zones dz).level
      = (scanZones dz (fun z => oracle lat lon z.latitude z.longitude)
          zones initialScan).alertLevel := by
  unfold checkDangerZones
  rw [if_neg (by simpa using h)]

/-- A later zone whose band has strictly lower severity than the accumulated
level leaves both the status and the level untouched. -/
theorem zoneStep_lower_band (dz : DangerZoneDistances) (d : JSNum) (z : DangerZone)
    (s : ScanState) (hs : ScanInv s)
    (hlt : levelOrder (zoneBand dz d z.radius) < levelOrder s.alertLevel) :
    (zoneStep dz d z s).1.status = s.status
      ∧ (zoneStep dz d z s).1.alertLevel = s.alertLevel
      ∧ (zoneStep dz d z s).2 = false := by
  have hst := updateClosest_status d z s
  have hlv := updateClosest_level d z s
  have hle3 := levelOrder_le_three s.alertLevel
  unfold zoneStep
  unfold zoneBand at hlt
  by_cases h1 : jsLeQ d z.radius = true
  · rw [if_pos h1] at hlt
    have hlt3 : (3 : ℕ) < levelOrder s.alertLevel := hlt
    omega
  · rw [Bool.not_eq_true] at h1
    rw [if_neg (by simp [h1])] at hlt
    simp only [h1, Bool.false_eq_true, if_false]
    by_cases h2 : jsLeQ d (z.radius + dz.critical) = true
    · rw [if_pos h2] at hlt
      have hlt3 : (3 : ℕ) < levelOrder s.alertLevel := hlt
      omega
    · rw [Bool.not_eq_true] at h2
      rw [if_neg (by simp [h2])] at hlt
      simp only [h2, Bool.false_eq_true, if_false]
      by_cases h3 : jsLeQ d (z.radius + dz.warning) = true
      · rw [if_pos h3] at hlt
        have hcrit := eq_critical_of_two_lt hlt
        rcases hs.1 hcrit with hmk | hmk
        · simp only [h3, if_true, hst, hmk, Bool.not_true, Bool.and_false,
            Bool.false_eq_true, if_false]
          simp [hst, hlv]
        · simp only [h3, if_true, hst, hmk, Bool.not_true, Bool.false_and,
            Bool.false_eq_true, if_false]
          simp [hst, hlv]
      · rw [Bool.not_eq_true] at h3
        rw [if_neg (by simp [h3])] at hlt
        simp only [h3, Bool.false_eq_true, if_false]
        by_cases h4 : jsLeQ d (z.radius + dz.info) = true
        · rw [if_pos h4] at hlt
          simp only [h4, if_true]
          rcases warning_or_critical_of_one_lt hlt with hw | hcrit
          · have hmk := hs.2 hw
            simp only [hst, hmk, Bool.not_true, Bool.and_false, Bool.false_eq_true, if_false]
            simp [hst, hlv]
          · rcases hs.1 hcrit with hmk | hmk
            · simp only [hst, hmk, Bool.not_true, Bool.and_false, Bool.false_and,
                Bool.false_eq_true, if_false]
              simp [hst, hlv]
            · simp only [hst, hmk, Bool.not_true, Bool.false_and, Bool.false_eq_true, if_false]
              simp [hst, hlv]
        · rw [Bool.not_eq_true] at h4
          simp only [h4, Bool.false_eq_true, if_false]
          simp [hst, hlv]

/-! ## Claim C1 — severity behaviour of the geofence scan -/

/-- C1 (counterexample): the claim asserts that once an earlier zone has set
a status, "only a strictly higher severity replaces it".  With zones A and B
both in the critical-proximity band (distances 120 m and 130 m, radius
100 m), zone A first sets the critical status, and zone B — a band of
*equal* severity — replaces the status string in the same call (the level
stays critical). -/
theorem c1_counterexample :
    (checkDangerZones c1oracle (some 10) (some 10) [c1zoneA]
        defaultConditions.dangerZoneDistances).status = "🚨 CRITICAL PROXIMITY to A"
    ∧ (checkDangerZones c1oracle (some 10) (some 10) [c1zoneA, c1zoneB]
        defaultConditions.dangerZoneDistances).status = "🚨 CRITICAL PROXIMITY to B"
    ∧ (checkDangerZones c1oracle (some 10) (some 10) [c1zoneA]
        defaultConditions.dangerZoneDistances).level = some AlertLevel.critical
    ∧ (checkDangerZones c1oracle (some 10) (some 10) [c1zoneA, c1zoneB]
        defaultConditions.dangerZoneDistances).level = some AlertLevel.critical := by
  have hoA : c1oracle (some 10) (some 10) c1zoneA.latitude c1zoneA.longitude = some 120 := by
    norm_num [c1oracle, c1zoneA]
  have hoB : c1oracle (some 10) (some 10) c1zoneB.latitude c1zoneB.longitude = some 130 := by
    norm_num [c1oracle, c1zoneB]
  have ha_rad : c1zoneA.radius = 100 := rfl
  have hb_rad : c1zoneB.radius = 100 := rfl
  have hdc : defaultConditions.dangerZoneDistances.critical = 50 := rfl
  have hc1 : jsLeQ (some 120) (100 : ℚ) = false := by norm_num [jsLeQ]
  have hc2 : jsLeQ (some 120) ((100 : ℚ) + 50) = true := by norm_num [jsLeQ]
  have hc3 : jsLeQ (some 130) (100 : ℚ) = false := by norm_num [jsLeQ]
  have hc4 : jsLeQ (some 130) ((100 : ℚ) + 50) = true := by norm_num [jsLeQ]
  have hlt1 : jsLtInf (some 120) none = true := rfl
  have hlt2 : jsLtInf (some 130) (some (some 120)) = false := by norm_num [jsLtInf]
  have hI1 : strIncludes "Safe" "INSIDE" = false := by decide
  have hI2 : strIncludes (criticalStatus c1zoneA) "INSIDE" = false := by decide
  have hI3 : strIncludes "🚨 CRITICAL PROXIMITY to A" "INSIDE" = false := by decide
  have hsafe1 : ¬(criticalStatus c1zoneA = "Safe") := by decide
  have hsafe2 : ¬(criticalStatus c1zoneB = "Safe") := by decide
  have heq1 : criticalStatus c1zoneA = "🚨 CRITICAL PROXIMITY to A" := by decide
  have heq2 : criticalStatus c1zoneB = "🚨 CRITICAL PROXIMITY to B" := by decide
  refine ⟨?_, ?_, ?_, ?_⟩ <;>
    simp [checkDangerZones, scanZones, zoneStep, updateClosest, initialScan,
      hoA, hoB, ha_rad, hb_rad, hdc, hc1, hc2, hc3, hc4, hlt1, hlt2,
      hI1, hI2, hI3, hsafe1, hsafe2, heq1, heq2]

/-- C1 (amended): the geofence scan is severity-monotonic on the *level*:
extending the zone list never lowers the reported level; as soon as any
zone reports inside (distance within its radius), the scan stops
immediately — the zones after it are ignored and the level is critical;
and a later zone whose band has strictly *lower* severity than the
accumulated level changes neither the status nor the level (a band of equal
or higher severity may, however, replace the status, as the counterexample
shows — not only a strictly higher one). -/
theorem c1_scan_monotone_and_short_circuit :
    ∀ (oracle : DistOracle) (lat lon : JSNum) (dz : DangerZoneDistances)
      (zs1 zs2 rest : List DangerZone) (z : DangerZone),
      (levelOrder (checkDangerZones oracle lat lon zs1 dz).level ≤
        levelOrder (checkDangerZones oracle lat lon (zs1 ++ zs2) dz).level)
      ∧ ((∀ w ∈ zs1, jsLeQ (oracle lat lon w.latitude w.longitude) w.radius = false) →
          jsLeQ (oracle lat lon z.latitude z.longitude) z.radius = true →
          (checkDangerZones oracle lat lon (zs1 ++ z :: rest) dz
              = checkDangerZones oracle lat lon (zs1 ++ [z]) dz
            ∧ (checkDangerZones oracle lat lon (zs1 ++ z :: rest) dz).level
              = some AlertLevel.critical))
      ∧ (∀ (d : JSNum) (s : ScanState), ScanInv s →
          levelOrder (zoneBand dz d z.radius) < levelOrder s.alertLevel →
          ((zoneStep dz d z s).1.status = s.status
            ∧ (zoneStep dz d z s).1.alertLevel = s.alertLevel
            ∧ (zoneStep dz d z s).2 = false)) := by
  intro oracle lat lon dz zs1 zs2 rest z
  refine ⟨?_, ?_, ?_⟩
  · by_cases hzs1 : zs1 = []
    · subst hzs1
      have hnil : (checkDangerZones oracle lat lon [] dz).level = none := rfl
      rw [hnil]
      exact Nat.zero_le _
    · have h2 : zs1 ++ zs2 ≠ [] := fun hcon => hzs1 (List.append_eq_nil.mp hcon).1
      rw [checkDangerZones_level oracle lat lon zs1 dz hzs1,
        checkDangerZones_level oracle lat lon (zs1 ++ zs2) dz h2]
      exact scanZones_prefix_mono dz _ zs1 zs2 initialScan scanInv_initial
  · intro hno hz
    have hne1 : zs1 ++ z :: rest ≠ [] := by simp
    have hne2 : zs1 ++ [z] ≠ [] := by simp
    have hmain := scanZones_inside_break dz
      (fun w => oracle lat lon w.latitude w.longitude) zs1 z rest initialScan hno hz
    constructor
    · unfold checkDangerZones
      rw [if_neg (by simp), if_neg (by simp)]
      simp only [hmain.1]
    · rw [checkDangerZones_level oracle lat lon _ dz hne1]
      exact hmain.2
  · intro d s hs hlt
    exact zoneStep_lower_band dz d z s hs hlt

/-- C1 (witness): instances of the amended theorem at concrete inputs —
zone A is "inside" (50 m into a 100 m radius), so the scan over
`[A, B]` equals the scan over `[A]` and reports critical; and a zone in no
band (1000 m away) leaves an accumulated critical state untouched. -/
theorem c1_witness :
    (checkDangerZones c1insideOracle (some 0) (some 0) [c1zoneA, c1zoneB]
        defaultConditions.dangerZoneDistances
      = checkDangerZones c1insideOracle (some 0) (some 0) [c1zoneA]
        defaultConditions.dangerZoneDistances)
    ∧ (checkDangerZones c1insideOracle (some 0) (some 0) [c1zoneA, c1zoneB]
        defaultConditions.dangerZoneDistances).level = some AlertLevel.critical
    ∧ (zoneStep defaultConditions.dangerZoneDistances (some 1000) c1zoneB
        c1critState).1.status = c1critState.status
    ∧ (zoneStep defaultConditions.dangerZoneDistances (some 1000) c1zoneB
        c1critState).1.alertLevel = c1critState.alertLevel := by
  have h := c1_scan_monotone_and_short_circuit c1insideOracle (some 0) (some 0)
    defaultConditions.dangerZoneDistances [] [] [c1zoneB] c1zoneA
  have hb := c1_scan_monotone_and_short_circuit c1insideOracle (some 0) (some 0)
    defaultConditions.dangerZoneDistances [] [] [] c1zoneB
  have h2 := h.2.1 (by simp) (by norm_num [c1insideOracle, c1zoneA, jsLeQ])
  have h3 := hb.2.2 (some 1000) c1critState
    ⟨fun _ => Or.inl (criticalStatus_includes c1zoneA),
     fun hw => by simp [c1critState] at hw⟩
    (by norm_num [zoneBand, jsLeQ, c1zoneB, defaultConditions, levelOrder, c1critState])
  exact ⟨h2.1, h2.2, h3.1, h3.2.1⟩

/-! ## Map lemmas -/

theorem mapGet_mapSet_self {α : Type} (m : List (String × α)) (k : String) (v : α) :
    mapGet (mapSet m k v) k = some v := by
  induction m with
  | nil => simp [mapGet, mapSet]
  | cons p m ih =>
    by_cases hp : p.1 = k
    · simp [mapSet, mapGet, hp]
    · simp [mapSet, mapGet, hp, ih]

theorem mapGet_mapSet_ne {α : Type} (m : List (String × α)) (k k' : String) (v : α)
    (h : k ≠ k') : mapGet (mapSet m k v) k' = mapGet m k' := by
  induction m with
  | nil => simp [mapGet, mapSet, h]
  | cons p m ih =>
    by_cases hp : p.1 = k
    · simp [mapSet, mapGet, hp, h]
    · simp [mapSet, mapGet, hp, ih]

/-! ## Claim C4 — the cooldown gate -/

/-- C4: with the default configuration and a fresh cooldown map, two
critical-level triggers for the same id less than 5000 ms apart dispatch
exactly once: the first dispatches and records its timestamp, the second is
suppressed and leaves the state untouched.  Non-critical levels share the
10000 ms warning cooldown: the gate behaves identically on info and
warning. -/
theorem c4_cooldown_gate :
    ∀ (ns0 : NSState) (id : String) (t1 t2 : ℤ) (a1 a2 : NotificationAlert),
      ns0.config = defaultNotificationConfig →
      mapGet ns0.lastAlertTimes id = none →
      a1.id = id → a2.id = id → a1.level = .critical → a2.level = .critical →
      5000 ≤ t1 → t2 - t1 < 5000 →
      ((triggerAlert ns0 t1 a1).2 = true
        ∧ (triggerAlert (triggerAlert ns0 t1 a1).1 t2 a2).2 = false
        ∧ (triggerAlert (triggerAlert ns0 t1 a1).1 t2 a2).1 = (triggerAlert ns0 t1 a1).1
        ∧ mapGet (triggerAlert ns0 t1 a1).1.lastAlertTimes id = some t1)
      ∧ (∀ (ns : NSState) (now : ℤ) (i : String),
          shouldTriggerAlert ns now i .info = shouldTriggerAlert ns now i .warning)
      ∧ cooldownFor defaultNotificationConfig .critical = 5000
      ∧ cooldownFor defaultNotificationConfig .warning = 10000
      ∧ cooldownFor defaultNotificationConfig .info = 10000 := by
  intro ns0 id t1 t2 a1 a2 hcfg hfresh h1id h2id h1lv h2lv ht1 ht2
  have hfirst_cond : ¬(t1 - ((mapGet ns0.lastAlertTimes a1.id).getD 0) <
      cooldownFor ns0.config a1.level) := by
    rw [h1id, hfresh, hcfg, h1lv]
    simp [cooldownFor, defaultNotificationConfig]
    omega
  have hfirst : triggerAlert ns0 t1 a1 =
      ({ ns0 with lastAlertTimes := mapSet ns0.lastAlertTimes a1.id t1 }, true) := by
    unfold triggerAlert shouldTriggerAlert
    rw [if_neg hfirst_cond]
  have hget : mapGet (mapSet ns0.lastAlertTimes a1.id t1) a2.id = some t1 := by
    rw [h2id, ← h1id]
    exact mapGet_mapSet_self _ _ _
  have hsecond_cond : (t2 - ((mapGet (mapSet ns0.lastAlertTimes a1.id t1) a2.id).getD 0) <
      cooldownFor ns0.config a2.level) := by
    rw [hget, hcfg, h2lv]
    simp [cooldownFor, defaultNotificationConfig]
    omega
  have hsecond : triggerAlert { ns0 with lastAlertTimes := mapSet ns0.lastAlertTimes a1.id t1 }
      t2 a2 = ({ ns0 with lastAlertTimes := mapSet ns0.lastAlertTimes a1.id t1 }, false) := by
    unfold triggerAlert shouldTriggerAlert
    rw [if_pos hsecond_cond]
  refine ⟨⟨?_, ?_, ?_, ?_⟩, ?_, rfl, rfl, rfl⟩
  · rw [hfirst]
  · rw [hfirst]
    simp only
    rw [hsecond]
  · rw [hfirst]
    simp only
    rw [hsecond]
  · rw [hfirst]
    simp only
    rw [← h1id]
    exact mapGet_mapSet_self _ _ _
  · intro ns now i
    unfold shouldTriggerAlert cooldownFor
    simp

/-- C4 (witness): with a fresh service at default configuration, a critical
alert at t = 10000 dispatches and the same alert at t = 12000 (2000 ms
later) is suppressed by the cooldown. -/
theorem c4_witness :
    (triggerAlert ⟨defaultNotificationConfig, []⟩ 10000 c4alert).2 = true
    ∧ (triggerAlert (triggerAlert ⟨defaultNotificationConfig, []⟩ 10000 c4alert).1
        12000 c4alert).2 = false := by
  have h := c4_cooldown_gate ⟨defaultNotificationConfig, []⟩ "danger_zone" 10000 12000
    c4alert c4alert rfl rfl rfl rfl rfl rfl (by decide) (by decide)
  exact ⟨h.1.1, h.1.2.1⟩

/-! ## Claim C10 — shallow merge of configuration updates -/

/-- C10: both `updateConditions` and `updateConfig` merge one level deep:
every top-level key absent from the update keeps its old value, and every
top-level key present in the update is replaced wholesale by the supplied
value — so a group built from a nested partial loses the old group's other
sub-fields. -/
theorem c10_shallow_merge :
    ∀ (c : AlertConditions) (p : AlertConditionsUpdate)
      (cfg : NotificationConfig) (q : NotificationConfigUpdate),
      (p.temperatureThresholds = none →
        (updateConditions c p).temperatureThresholds = c.temperatureThresholds)
      ∧ (∀ T, p.temperatureThresholds = some T →
          (updateConditions c p).temperatureThresholds = T)
      ∧ (p.pressureThresholds = none →
        (updateConditions c p).pressureThresholds = c.pressureThresholds)
      ∧ (∀ P, p.pressureThresholds = some P →
          (updateConditions c p).pressureThresholds = P)
      ∧ (p.dataStaleThreshold = none →
        (updateConditions c p).dataStaleThreshold = c.dataStaleThreshold)
      ∧ (∀ n, p.dataStaleThreshold = some n →
          (updateConditions c p).dataStaleThreshold = n)
      ∧ (p.dangerZoneDistances = none →
        (updateConditions c p).dangerZoneDistances = c.dangerZoneDistances)
      ∧ (∀ D, p.dangerZoneDistances = some D →
          (updateConditions c p).dangerZoneDistances = D)
      ∧ (q.enableHaptics = none → (updateConfig cfg q).enableHaptics = cfg.enableHaptics)
      ∧ (∀ b, q.enableHaptics = some b → (updateConfig cfg q).enableHaptics = b)
      ∧ (q.enableAudio = none → (updateConfig cfg q).enableAudio = cfg.enableAudio)
      ∧ (∀ b, q.enableAudio = some b → (updateConfig cfg q).enableAudio = b)
      ∧ (q.enableVisual = none → (updateConfig cfg q).enableVisual = cfg.enableVisual)
      ∧ (∀ b, q.enableVisual = some b → (updateConfig cfg q).enableVisual = b)
      ∧ (q.criticalAlertCooldown = none →
        (updateConfig cfg q).criticalAlertCooldown = cfg.criticalAlertCooldown)
      ∧ (∀ n, q.criticalAlertCooldown = some n →
          (updateConfig cfg q).criticalAlertCooldown = n)
      ∧ (q.warningAlertCooldown = none →
        (updateConfig cfg q).warningAlertCooldown = cfg.warningAlertCooldown)
      ∧ (∀ n, q.warningAlertCooldown = some n →
          (updateConfig cfg q).warningAlertCooldown = n) := by
  intro c p cfg q
  refine ⟨?_, ?_, ?_, ?_, ?_, ?_, ?_, ?_, ?_, ?_, ?_, ?_, ?_, ?_, ?_, ?_, ?_, ?_⟩ <;>
    first
      | (intro h; simp [updateConditions, updateConfig, h])
      | (intro x h; simp [updateConditions, updateConfig, h])

/-- C10 (witness): replacing `temperatureThresholds` wholesale keeps
`dataStaleThreshold` but discards the default group's other sub-fields;
setting only `criticalAlertCooldown` keeps `enableHaptics`. -/
theorem c10_witness :
    (updateConditions defaultConditions
        { temperatureThresholds := some c10newTemp }).temperatureThresholds = c10newTemp
    ∧ (updateConditions defaultConditions
        { temperatureThresholds := some c10newTemp }).dataStaleThreshold
      = defaultConditions.dataStaleThreshold
    ∧ (updateConfig defaultNotificationConfig
        { criticalAlertCooldown := some 7000 }).criticalAlertCooldown = 7000
    ∧ (updateConfig defaultNotificationConfig
        { criticalAlertCooldown := some 7000 }).enableHaptics
      = defaultNotificationConfig.enableHaptics := by
  obtain ⟨hA1, hA2, hB1, hB2, hC1, hC2, hD1, hD2, hE1, hE2, hF1, hF2, hG1, hG2,
    hH1, hH2, hJ1, hJ2⟩ :=
    c10_shallow_merge defaultConditions { temperatureThresholds := some c10newTemp }
      defaultNotificationConfig { criticalAlertCooldown := some 7000 }
  exact ⟨hA2 c10newTemp rfl, hC1 rfl, hH2 7000 rfl, hE1 rfl⟩

/-! ## Tick lemmas (claims C3, C7, C9) -/

theorem dangerAlert_id {oracle : DistOracle} {cond : AlertConditions} {now : ℤ}
    {loc : Option Location} {zones : List DangerZone} {a : NotificationAlert}
    (h : dangerAlert oracle cond now loc zones = some a) : a.id = "danger_zone" := by
  unfold dangerAlert at h
  cases loc with
  | none => simp at h
  | some l =>
    dsimp only at h
    cases hr : (checkDangerZones oracle l.latitude l.longitude zones
        cond.dangerZoneDistances).level with
    | none => rw [hr] at h; simp at h
    | some lvl =>
      rw [hr] at h
      simp only [Option.some.injEq] at h
      rw [← h]

theorem tempAlert_id {cond : AlertConditions} {now : ℤ} {gpsData : Option GpsData}
    {a : NotificationAlert} (h : tempAlert cond now gpsData = some a) :
    a.id = "temperature" := by
  unfold tempAlert at h
  cases gpsData with
  | none => simp at h
  | some g =>
    dsimp only at h
    cases ht : g.temperature with
    | none => rw [ht] at h; simp at h
    | some t =>
      rw [ht] at h
      dsimp only at h
      cases hl : (getTemperatureStatus cond (some t)).2 with
      | none => rw [hl] at h; simp at h
      | some lvl =>
        rw [hl] at h
        simp only [Option.some.injEq] at h
        rw [← h]

theorem staleAlert_eq {cond : AlertConditions} {parseDate : String → ℤ} {now : ℤ}
    {gpsData : Option GpsData} {a : NotificationAlert}
    (h : staleAlert cond parseDate now gpsData = some a) : a = staleAlertRecord now := by
  unfold staleAlert at h
  cases gpsData with
  | none => simp at h
  | some g =>
    dsimp only at h
    by_cases hc : now - parseDate g.createdAt > cond.dataStaleThreshold
    · rw [if_pos hc] at h
      simp only [Option.some.injEq] at h
      rw [← h]
    · rw [if_neg hc] at h
      simp at h

theorem tickAlerts_ids_nodup (oracle : DistOracle) (parseDate : String → ℤ)
    (cond : AlertConditions) (now : ℤ) (gpsData : Option GpsData)
    (zones : List DangerZone) (deviceLocation : Option Location) :
    ((tickAlerts oracle parseDate cond now gpsData zones deviceLocation).map
      (fun a => a.id)).Nodup := by
  unfold tickAlerts
  cases hD : dangerAlert oracle cond now (resolveLocation gpsData deviceLocation) zones with
  | none =>
    cases hT : tempAlert cond now gpsData with
    | none =>
      cases hS : staleAlert cond parseDate now gpsData with
      | none => simp
      | some aS => simp
    | some aT =>
      cases hS : staleAlert cond parseDate now gpsData with
      | none => simp
      | some aS =>
        simp [tempAlert_id hT, staleAlert_eq hS, staleAlertRecord]
  | some aD =>
    cases hT : tempAlert cond now gpsData with
    | none =>
      cases hS : staleAlert cond parseDate now gpsData with
      | none => simp
      | some aS =>
        simp [dangerAlert_id hD, staleAlert_eq hS, staleAlertRecord]
    | some aT =>
      cases hS : staleAlert cond parseDate now gpsData with
      | none => simp [dangerAlert_id hD, tempAlert_id hT]
      | some aS =>
        simp [dangerAlert_id hD, tempAlert_id hT, staleAlert_eq hS, staleAlertRecord]

theorem mapGet_foldl_not_mem (alerts : List NotificationAlert) (m : AMap) (k : String)
    (h : k ∉ alerts.map (fun x => x.id)) :
    mapGet (alerts.foldl (fun m a => mapSet m a.id a) m) k = mapGet m k := by
  induction alerts generalizing m with
  | nil => rfl
  | cons b bs ih =>
    simp only [List.map_cons, List.mem_cons, not_or] at h
    rw [List.foldl_cons, ih (mapSet m b.id b) h.2]
    exact mapGet_mapSet_ne m b.id k b (fun hc => h.1 hc.symm)

theorem mapGet_buildActive (alerts : List NotificationAlert) (a : NotificationAlert)
    (ha : a ∈ alerts) (hnd : (alerts.map (fun x => x.id)).Nodup) :
    mapGet (buildActive alerts) a.id = some a := by
  unfold buildActive
  suffices hgen : ∀ m : AMap, mapGet (alerts.foldl (fun m a => mapSet m a.id a) m) a.id
      = some a by exact hgen []
  induction alerts with
  | nil => simp at ha
  | cons b bs ih =>
    intro m
    rcases List.mem_cons.mp ha with rfl | hmem
    · simp only [List.map_cons, List.nodup_cons] at hnd
      rw [List.foldl_cons, mapGet_foldl_not_mem bs _ _ hnd.1]
      exact mapGet_mapSet_self m a.id a
    · simp only [List.map_cons, List.nodup_cons] at hnd
      rw [List.foldl_cons]
      exact ih hmem hnd.2 (mapSet m b.id b)

theorem edgeTrigger_self (alerts : List NotificationAlert)
    (hnd : (alerts.map (fun x => x.id)).Nodup) :
    ∀ a ∈ alerts, edgeTrigger (buildActive alerts) a = false := by
  intro a ha
  unfold edgeTrigger
  rw [mapGet_buildActive alerts a ha hnd]
  by_cases hid : a.id = "data_stale" <;> simp [hid]

theorem mem_insLevel (a x : NotificationAlert) (l : List NotificationAlert) :
    x ∈ insLevel a l ↔ x = a ∨ x ∈ l := by
  induction l with
  | nil => simp [insLevel]
  | cons b bs ih =>
    unfold insLevel
    split
    · simp only [List.mem_cons, ih]
      tauto
    · simp only [List.mem_cons]

theorem mem_sortFold (l : List NotificationAlert) :
    ∀ (acc : List NotificationAlert) (x : NotificationAlert),
      x ∈ l.foldl (fun acc a => insLevel a acc) acc ↔ x ∈ acc ∨ x ∈ l := by
  induction l with
  | nil => intro acc x; simp
  | cons b bs ih =>
    intro acc x
    rw [List.foldl_cons, ih (insLevel b acc) x, mem_insLevel]
    simp only [List.mem_cons]
    tauto

theorem mem_sortByLevel (x : NotificationAlert) (l : List NotificationAlert) :
    x ∈ sortByLevel l ↔ x ∈ l := by
  unfold sortByLevel
  rw [mem_sortFold]
  simp

/-! ## Claim C3 — tick idempotence and edge-trigger suppression -/

/-- C3: running `processAlerts` twice with byte-identical inputs and no
time advance returns the same alert list both times; on the second run the
dispatcher (`notificationService.triggerAlert`) is not invoked for any id
— every id is found in the previous-tick map at the same level, so the
suppression happens at the edge-trigger comparison, before the cooldown
gate could even run — hence across the two runs each id reaches the
dispatcher at most once. -/
theorem c3_tick_idempotent :
    ∀ (oracle : DistOracle) (parseDate : String → ℤ) (am : AMState) (ns : NSState)
      (now : ℤ) (gpsData : Option GpsData) (zones : List DangerZone)
      (deviceLocation : Option Location),
      (processAlerts oracle parseDate
          (processAlerts oracle parseDate am ns now gpsData zones deviceLocation).am
          (processAlerts oracle parseDate am ns now gpsData zones deviceLocation).ns
          now gpsData zones deviceLocation).alerts
        = (processAlerts oracle parseDate am ns now gpsData zones deviceLocation).alerts
      ∧ (processAlerts oracle parseDate
          (processAlerts oracle parseDate am ns now gpsData zones deviceLocation).am
          (processAlerts oracle parseDate am ns now gpsData zones deviceLocation).ns
          now gpsData zones deviceLocation).invoked = []
      ∧ ∀ i : String,
          (((processAlerts oracle parseDate am ns now gpsData zones deviceLocation).invoked
            ++ (processAlerts oracle parseDate
                (processAlerts oracle parseDate am ns now gpsData zones deviceLocation).am
                (processAlerts oracle parseDate am ns now gpsData zones deviceLocation).ns
                now gpsData zones deviceLocation).invoked).count i) ≤ 1 := by
  intro oracle parseDate am ns now gpsData zones deviceLocation
  have hnd := tickAlerts_ids_nodup oracle parseDate am.conditions now gpsData zones
    deviceLocation
  have hfilter : (tickAlerts oracle parseDate am.conditions now gpsData zones
      deviceLocation).filter
      (fun a => edgeTrigger (buildActive (tickAlerts oracle parseDate am.conditions now
        gpsData zones deviceLocation)) a) = [] := by
    rw [List.filter_eq_nil_iff]
    intro a ha
    simp [edgeTrigger_self _ hnd a ha]
  have hinv2 : (processAlerts oracle parseDate
      (processAlerts oracle parseDate am ns now gpsData zones deviceLocation).am
      (processAlerts oracle parseDate am ns now gpsData zones deviceLocation).ns
      now gpsData zones deviceLocation).invoked = [] := by
    show ((tickAlerts oracle parseDate am.conditions now gpsData zones
        deviceLocation).filter
        (fun a => edgeTrigger (buildActive (tickAlerts oracle parseDate am.conditions now
          gpsData zones deviceLocation)) a)).map (fun a => a.id) = []
    rw [hfilter]
    rfl
  refine ⟨rfl, hinv2, ?_⟩
  intro i
  rw [hinv2, List.append_nil]
  show (((tickAlerts oracle parseDate am.conditions now gpsData zones
      deviceLocation).filter (fun a => edgeTrigger am.activeAlerts a)).map
      (fun a => a.id)).count i ≤ 1
  have hsub : List.Sublist
      (((tickAlerts oracle parseDate am.conditions now gpsData zones
        deviceLocation).filter (fun a => edgeTrigger am.activeAlerts a)).map
        (fun a => a.id))
      ((tickAlerts oracle parseDate am.conditions now gpsData zones deviceLocation).map
        (fun a => a.id)) :=
    (List.filter_sublist _).map _
  exact le_trans (hsub.count_le i) (List.nodup_iff_count_le_one.mp hnd i)

/-! ## Claim C7 — location resolution -/

/-- C7 (counterexample): the claim treats exactly "0,0 or NaN" as the
absent sentinel.  The code instead (a) discards a sample whose latitude
alone is 0 — with coordinates (0, 5), present and not the claimed sentinel,
it falls back to the device location — and (b) accepts a NaN latitude —
with (NaN, 5) it uses the sample instead of falling back. -/
theorem c7_counterexample :
    resolveLocation (some c7gpsZeroLat) (some c7device) = some c7device
    ∧ some c7device
        ≠ some ({ latitude := some 0, longitude := some 5 } : Location)
    ∧ resolveLocation (some c7gpsNaNLat) (some c7device)
        = some ({ latitude := none, longitude := some 5 } : Location)
    ∧ some ({ latitude := none, longitude := some 5 } : Location)
        ≠ some c7device := by
  refine ⟨?_, ?_, ?_, ?_⟩
  · simp [resolveLocation, c7gpsZeroLat]
  · simp [c7device, Location.mk.injEq]
  · simp [resolveLocation, c7gpsNaNLat]
  · simp [c7device, Location.mk.injEq]

/-- C7 (amended): the tick's location resolution uses the sample exactly
when both coordinates are `!== 0` — so it treats latitude 0 *or*
longitude 0 (not just the pair 0,0) as absent and falls back to the device
location, while `NaN` coordinates pass the check and are used as a
position; with no sample coordinates accepted and no device fallback, no
location resolves and the tick emits no danger-zone alert. -/
theorem c7_location_resolution :
    ∀ (g : GpsData) (deviceLocation : Option Location) (oracle : DistOracle)
      (parseDate : String → ℤ) (am : AMState) (ns : NSState) (now : ℤ)
      (gpsData : Option GpsData) (zones : List DangerZone),
      (g.latitude ≠ some 0 → g.longitude ≠ some 0 →
        resolveLocation (some g) deviceLocation
          = some { latitude := g.latitude, longitude := g.longitude })
      ∧ ((g.latitude = some 0 ∨ g.longitude = some 0) →
        resolveLocation (some g) deviceLocation = deviceLocation)
      ∧ resolveLocation none deviceLocation = deviceLocation
      ∧ (resolveLocation gpsData deviceLocation = none →
          ∀ a ∈ (processAlerts oracle parseDate am ns now gpsData zones
              deviceLocation).alerts, a.id ≠ "danger_zone") := by
  intro g deviceLocation oracle parseDate am ns now gpsData zones
  refine ⟨?_, ?_, rfl, ?_⟩
  · intro h1 h2
    simp [resolveLocation, h1, h2]
  · intro h
    rcases h with h | h <;> simp [resolveLocation, h]
  · intro hloc a ha
    have halerts : (processAlerts oracle parseDate am ns now gpsData zones
        deviceLocation).alerts = sortByLevel (tickAlerts oracle parseDate am.conditions
          now gpsData zones deviceLocation) := rfl
    rw [halerts, mem_sortByLevel] at ha
    unfold tickAlerts at ha
    rw [hloc] at ha
    simp only [dangerAlert, Option.toList_none, List.nil_append, List.mem_append] at ha
    rcases ha with ha | ha
    · cases hT : tempAlert am.conditions now gpsData with
      | none => rw [hT] at ha; simp at ha
      | some aT =>
        rw [hT] at ha
        simp only [Option.toList_some, List.mem_singleton] at ha
        rw [ha, tempAlert_id hT]
        decide
    · cases hS : staleAlert am.conditions parseDate now gpsData with
      | none => rw [hS] at ha; simp at ha
      | some aS =>
        rw [hS] at ha
        simp only [Option.toList_some, List.mem_singleton] at ha
        rw [ha, staleAlert_eq hS]
        simp [staleAlertRecord]

/-- C7 (witness): concrete instances of the amended resolution rules — the
NaN-latitude sample is used as-is, the zero-latitude sample falls back to
the device location, and a tick with no sample and no device location
produces no danger-zone alert. -/
theorem c7_witness :
    resolveLocation (some c7gpsNaNLat) (some c7device)
      = some { latitude := c7gpsNaNLat.latitude, longitude := c7gpsNaNLat.longitude }
    ∧ resolveLocation (some c7gpsZeroLat) (some c7device) = some c7device
    ∧ ∀ a ∈ (processAlerts (fun _ _ _ _ => some 0) (fun _ => 0) amInit nsInit 0 none []
        none).alerts, a.id ≠ "danger_zone" := by
  have h1 := c7_location_resolution c7gpsNaNLat (some c7device) (fun _ _ _ _ => some 0)
    (fun _ => 0) amInit nsInit 0 none []
  have h2 := c7_location_resolution c7gpsZeroLat (some c7device) (fun _ _ _ _ => some 0)
    (fun _ => 0) amInit nsInit 0 none []
  have h3 := c7_location_resolution c7gpsZeroLat none (fun _ _ _ _ => some 0)
    (fun _ => 0) amInit nsInit 0 none []
  refine ⟨h1.1 (by simp [c7gpsNaNLat]) (by simp [c7gpsNaNLat]),
    h2.2.1 (Or.inl rfl), ?_⟩
  exact h3.2.2.2 rfl

/-! ## Claim C9 — data staleness -/

/-- C9: whenever a sample exists and is older than the staleness threshold,
the tick's alert list contains the `data_stale` alert, which is a warning;
and in the concrete scenario — six-minute-old sample, default conditions,
no zones, no temperature — the returned list is exactly that one alert. -/
theorem c9_staleness :
    ∀ (oracle : DistOracle) (parseDate : String → ℤ) (am : AMState) (ns : NSState)
      (now : ℤ) (g : GpsData) (zones : List DangerZone)
      (deviceLocation : Option Location),
      (now - parseDate g.createdAt > am.conditions.dataStaleThreshold →
        staleAlertRecord now ∈ (processAlerts oracle parseDate am ns now (some g) zones
          deviceLocation).alerts)
      ∧ (staleAlertRecord now).level = .warning
      ∧ (staleAlertRecord now).id = "data_stale"
      ∧ (am.conditions = defaultConditions → zones = [] → g.temperature = none →
          now - parseDate g.createdAt = 360000 →
          (processAlerts oracle parseDate am ns now (some g) zones
            deviceLocation).alerts = [staleAlertRecord now]) := by
  intro oracle parseDate am ns now g zones deviceLocation
  refine ⟨?_, rfl, rfl, ?_⟩
  · intro h
    have hS : staleAlert am.conditions parseDate now (some g)
        = some (staleAlertRecord now) := by
      unfold staleAlert
      dsimp only
      rw [if_pos h]
    have halerts : (processAlerts oracle parseDate am ns now (some g) zones
        deviceLocation).alerts = sortByLevel (tickAlerts oracle parseDate am.conditions
          now (some g) zones deviceLocation) := rfl
    rw [halerts, mem_sortByLevel]
    unfold tickAlerts
    rw [hS]
    simp
  · intro hcond hz ht hnow
    subst hz
    have hD : dangerAlert oracle am.conditions now
        (resolveLocation (some g) deviceLocation) [] = none := by
      cases resolveLocation (some g) deviceLocation with
      | none => rfl
      | some loc => simp [dangerAlert, checkDangerZones]
    have hT : tempAlert am.conditions now (some g) = none := by
      simp [tempAlert, ht]
    have hS : staleAlert am.conditions parseDate now (some g)
        = some (staleAlertRecord now) := by
      unfold staleAlert
      dsimp only
      rw [if_pos (by rw [hnow, hcond]; norm_num [defaultConditions])]
    have halerts : (processAlerts oracle parseDate am ns now (some g) []
        deviceLocation).alerts = sortByLevel (tickAlerts oracle parseDate am.conditions
          now (some g) [] deviceLocation) := rfl
    rw [halerts]
    unfold tickAlerts
    rw [hD, hT, hS]
    rfl

/-- C9 (witness): the six-minute-old sample with no zones and no
temperature yields exactly the `data_stale` warning alert. -/
theorem c9_witness :
    (processAlerts (fun _ _ _ _ => some 0) (fun _ => 0) amInit nsInit 360000 (some c9gps)
      [] none).alerts = [staleAlertRecord 360000]
    ∧ staleAlertRecord 360000 ∈ (processAlerts (fun _ _ _ _ => some 0) (fun _ => 0)
        amInit nsInit 360000 (some c9gps) [] none).alerts := by
  have h := c9_staleness (fun _ _ _ _ => some 0) (fun _ => 0) amInit nsInit 360000 c9gps
    [] none
  refine ⟨h.2.2.2 rfl rfl rfl (by norm_num [c9gps]), ?_⟩
  exact h.1 (by norm_num [amInit, defaultConditions, c9gps])

/-! ## Claim C5 — stale-but-available on network failure -/

/-- C5: when the network call fails, `fetchGpsData` returns the cached
sample unmodified whenever one exists — regardless of its TTL, its age, or
`forceRefresh` — keeping the cache slot intact; only with no cached sample
does the call fail with the error. -/
theorem c5_failure_returns_cache :
    ∀ (st : TSState) (tStart tDone : ℤ) (forceRefresh : Bool) (e : String),
      (∀ d, st.cachedData = some d →
        (fetchGpsData st tStart tDone forceRefresh (.error e)).result = .ok d
        ∧ (fetchGpsData st tStart tDone forceRefresh (.error e)).state.cachedData
            = some d)
      ∧ (st.cachedData = none →
        (fetchGpsData st tStart tDone forceRefresh (.error e)).result = .error e) := by
  intro st t1 t2 force e
  constructor
  · intro d hd
    unfold fetchGpsData
    split_ifs with h1 h2
    · simp [hd]
    · simp [hd]
    · rw [hd]
      simp
  · intro hd
    unfold fetchGpsData
    split_ifs with h1 h2
    · rw [hd] at h1
      simp at h1
    · rw [hd] at h2
      simp at h2
    · rw [hd]

/-- C5 (witness): with a (long-expired) cached sample, a failing fetch
still returns that sample; with a cold cache the error propagates. -/
theorem c5_witness :
    (fetchGpsData tsCached 200000 200500 false (.error "network down")).result
      = .ok (parseGpsData rawOk)
    ∧ (fetchGpsData tsInit 200000 200500 false (.error "network down")).result
      = .error "network down" :=
  ⟨((c5_failure_returns_cache tsCached 200000 200500 false "network down").1
      (parseGpsData rawOk) rfl).1,
   (c5_failure_returns_cache tsInit 200000 200500 false "network down").2 rfl⟩

/-! ## Claim C6 — cache TTL and forced refresh -/

/-- C6: after a `fetch(false)` that performed a successful network call, a
second `fetch(false)` issued within 30000 ms of the call's completion
performs no network call and returns the cached parsed sample (whatever the
network would have done); and `fetch(true)` always performs a network call
(when no call is in flight, which single-threaded execution guarantees at
rest). -/
theorem c6_cache_law :
    ∀ (st0 : TSState) (t1 t1d t2 t2d : ℤ) (raw : RawFeed)
      (net2 : Except String RawFeed),
      ((fetchGpsData st0 t1 t1d false (.ok raw)).madeNetworkCall = true →
        t2 - t1d < 30000 →
        (fetchGpsData (fetchGpsData st0 t1 t1d false (.ok raw)).state t2 t2d false
          net2).madeNetworkCall = false
        ∧ (fetchGpsData (fetchGpsData st0 t1 t1d false (.ok raw)).state t2 t2d false
            net2).result = .ok (parseGpsData raw))
      ∧ (∀ (st : TSState) (t t' : ℤ) (net : Except String RawFeed),
          st.isApiCallInProgress = false →
          (fetchGpsData st t t' true net).madeNetworkCall = true) := by
  intro st0 t1 t1d t2 t2d raw net2
  constructor
  · intro hmade hfresh
    have hstate : (fetchGpsData st0 t1 t1d false (.ok raw)).state
        = { lastApiCall := t1d, cachedData := some (parseGpsData raw),
            isApiCallInProgress := false } := by
      unfold fetchGpsData at hmade ⊢
      split_ifs at hmade ⊢
      rfl
    rw [hstate]
    unfold fetchGpsData
    rw [if_pos ⟨rfl, rfl, hfresh⟩]
    constructor
    · rfl
    · simp
  · intro st t t' net hprog
    unfold fetchGpsData
    rw [if_neg (by simp), if_neg (by rw [hprog]; simp)]
    cases net with
    | ok raw' => rfl
    | error e =>
      cases hd : st.cachedData with
      | some d => rfl
      | none => rfl

/-- C6 (witness): from a cold state, a successful fetch at t = 100000
followed by a plain fetch at t = 110000 (9500 ms after completion) makes no
second network call even though the network would fail, and a forced fetch
from the cold state does make a call. -/
theorem c6_witness :
    (fetchGpsData (fetchGpsData tsInit 100000 100500 false (.ok rawOk)).state
      110000 110500 false (.error "down")).madeNetworkCall = false
    ∧ (fetchGpsData tsInit 100000 100500 true (.ok rawOk)).madeNetworkCall = true := by
  have h := c6_cache_law tsInit 100000 100500 110000 110500 rawOk (.error "down")
  exact ⟨(h.1 rfl (by decide)).1, h.2 tsInit 100000 100500 (.ok rawOk) rfl⟩

end SmartFootwear
